import Mathlib

set_option linter.unusedVariables false

/-!
# Verification of the nipreps-book diffusion-model core

Shallow embedding of the model-fitting/prediction code of the notebook
`docs/notebook/03-models.ipynb` (classes `TrivialB0Model` and
`AverageDWModel`), together with spec-modelled definitions for the
`eddymotion` collaborators (`DWI.logo_split`, `ModelFactory.init`) whose
source is not part of this repository.

Conventions of the embedding:
* a 3D voxel map is flattened into a list of rational intensities (`Vol`);
* a 4D DWI array is a direction-indexed list of 3D maps (`Data4D`);
* Python keyword-argument dictionaries become association lists (`Kwargs`);
* a Python `raise` becomes `Except.error` carrying a `PyError`;
* reading an unassigned `__slots__` attribute raises `AttributeError`,
  embedded as an `Option` slot holding `none`.
-/

/-- A 3D voxel map, flattened into a list of voxel intensities. -/
abbrev Vol := List ℚ

/-- A 4D DWI array: one 3D voxel map per diffusion direction. -/
abbrev Data4D := List Vol

/-- Arbitrary Python keyword arguments, embedded as an association list. -/
abbrev Kwargs := List (String × ℚ)

/-- One row of a gradient table: a diffusion-encoding direction (unit
vector in scanner coordinates) and its sensitization strength (b-value). -/
structure Gradient where
  bvec : ℚ × ℚ × ℚ
  bval : ℚ
deriving DecidableEq, Inhabited

/-- The kinds of exceptions the embedded code can raise. -/
inductive PyError where
  | valueError (msg : String)
  | attributeError (attr : String)
  | indexError (msg : String)
  | unknownModelError (name : String)
deriving DecidableEq

/-- The trivial constant model of the notebook: class `TrivialB0Model`,
whose only slot is `_S0`, the reference b=0 map supplied at construction. -/
structure TrivialB0Model where
  S0 : Vol
deriving DecidableEq

namespace TrivialB0Model

/-- `TrivialB0Model.__init__(self, gtab, S0=None, **kwargs)`: raises
`ValueError` when the keyword `S0` is left at its default `None`,
otherwise stores `S0` in the `_S0` slot.  The gradient table and the
remaining keyword arguments are ignored. -/
def init (gtab : List Gradient) (S0 : Option Vol) (kwargs : Kwargs) :
    Except PyError TrivialB0Model :=
  match S0 with
  | none => .error (.valueError "S0 must be provided")
  | some s => .ok ⟨s⟩

/-- `TrivialB0Model.fit(self, *args, **kwargs)`: the body is a lone
docstring, so the model state is left untouched. -/
def fit (m : TrivialB0Model) (args : List Data4D) (kwargs : Kwargs) :
    TrivialB0Model :=
  m

/-- `TrivialB0Model.predict(self, gradient, **kwargs)`: returns the `_S0`
slot unconditionally. -/
def predict (m : TrivialB0Model) (gradient : Gradient) (kwargs : Kwargs) :
    Vol :=
  m.S0

end TrivialB0Model

/-- The averaging model of the notebook: class `AverageDWModel`, whose
only slot is `_data`.  The slot is `none` while the Python attribute is
unassigned. -/
structure AverageDWModel where
  _data : Option Data4D
deriving DecidableEq

namespace AverageDWModel

/-- `AverageDWModel.__init__(self, gtab, **kwargs)`: the body is
`return` — nothing happens at initialization time, so the `_data` slot
is left unassigned. -/
def init (gtab : List Gradient) (kwargs : Kwargs) : AverageDWModel :=
  ⟨none⟩

/-- `AverageDWModel.fit(self, data, **kwargs)`: the averaging assignment
`self._data = ...` is commented out in the notebook cell, so the body
does nothing and `_data` stays as it was. -/
def fit (m : AverageDWModel) (data : Data4D) (kwargs : Kwargs) :
    AverageDWModel :=
  m

/-- `AverageDWModel.predict(self, gradient, **kwargs)`: returns
`self._data`; reading the slot while it is unassigned raises
`AttributeError`. -/
def predict (m : AverageDWModel) (gradient : Gradient) (kwargs : Kwargs) :
    Except PyError Data4D :=
  match m._data with
  | none => .error (.attributeError "_data")
  | some d => .ok d

end AverageDWModel

/-- Modelled from the spec: the b-value threshold below which a volume is
labeled *b=0* ("b-value below a small epsilon threshold"); the concrete
epsilon is not fixed by the spec. -/
def bvalEps : ℚ := 50

/-- Modelled from the spec: whether a gradient-table row marks a *b=0*
volume ("a b-value of (near) zero marks a b=0 volume"). -/
def isB0 (g : Gradient) : Bool :=
  decide (g.bval < bvalEps)

/-- Modelled from the spec: the `eddymotion.dmri.DWI` dataset class is not
part of this repository (the notebooks only call it), so its state is
taken from the spec's data model — a 4D signal array with one 3D volume
per direction, a gradient table with one row per direction, and a lazily
cached derived b=0 average.  The affine transform plays no role in the
claims and is omitted. -/
structure DWI where
  dataobj : Data4D
  gradients : List Gradient
  bzeroCache : Option Vol
deriving DecidableEq

/-- Voxel-wise sum of two 3D maps. -/
def volAdd (v w : Vol) : Vol :=
  List.zipWith (· + ·) v w

/-- Voxel-wise scaling of a 3D map. -/
def volScale (c : ℚ) (v : Vol) : Vol :=
  v.map (c * ·)

namespace DWI

/-- Modelled from the spec: "Must deterministically average all
b=0-labeled volumes (b-value below a small epsilon threshold) to produce
the constant reference map on demand." -/
def computeBzero (d : DWI) : Vol :=
  let b0s := ((d.dataobj.zip d.gradients).filter fun p => isB0 p.2).map Prod.fst
  match b0s with
  | [] => []
  | v :: vs => volScale (1 / (vs.length + 1 : ℚ)) (vs.foldl volAdd v)

/-- Modelled from the spec: the derived b=0 average, "computed lazily" —
returned from the cache when present, otherwise computed and cached.
The first component is the dataset state after the call. -/
def bzero (d : DWI) : DWI × Vol :=
  match d.bzeroCache with
  | some v => (d, v)
  | none =>
      let v := d.computeBzero
      ({ d with bzeroCache := some v }, v)

/-- Modelled from the spec: the indices a held-out request may name —
"given an index into the non-b0 (or all, if `with_b0`) directions".  Each
entry is the position of an eligible direction in the full 4th axis. -/
def eligibleIndices (d : DWI) (with_b0 : Bool) : List Nat :=
  if with_b0 then
    List.range d.gradients.length
  else
    (List.range d.gradients.length).filter fun j =>
      !(isB0 (d.gradients.getD j default))

/-- Modelled from the spec: `DWI.logo_split(held_out_index, with_b0)` of
the external `eddymotion` package.  Per the spec: the index names an
eligible direction; out of range fails with an `IndexError`-kind
condition before any partitioning; otherwise training data excludes the
selected direction's volume, held-out data is exactly that one volume
plus its gradient entry, and with `with_b0` the derived b=0 average is
(lazily, with caching) prepended to the training data so that training
holds N instead of N−1 directions.  The first component is the dataset
state after the call. -/
def logo_split (d : DWI) (i : Nat) (with_b0 : Bool) :
    DWI × Except PyError ((Data4D × List Gradient) × (Data4D × List Gradient)) :=
  match (d.eligibleIndices with_b0).get? i with
  | none => (d, .error (.indexError "LOGO index out of range"))
  | some j =>
      let trainVols := d.dataobj.eraseIdx j
      let trainGrads := d.gradients.eraseIdx j
      let heldOut := ([d.dataobj.getD j []], [d.gradients.getD j default])
      if with_b0 then
        let (d', bz) := d.bzero
        (d', .ok ((bz :: trainVols, ⟨(0, 0, 0), 0⟩ :: trainGrads), heldOut))
      else
        (d, .ok ((trainVols, trainGrads), heldOut))

end DWI

/-- Modelled from the spec: the closed set of model variants the factory
can construct — constant/b0, averaging, and the external tensor (DTI) and
kurtosis (DKI) models, the latter two opaque wrappers over an external
solver holding their construction arguments. -/
inductive DiffusionModel where
  | trivialB0 (m : TrivialB0Model)
  | averageDW (m : AverageDWModel)
  | dti (gtab : List Gradient) (S0 : Option Vol) (params : Kwargs)
  | dki (gtab : List Gradient) (S0 : Option Vol) (params : Kwargs)
deriving DecidableEq

/-- Replay of a sequence of `fit` calls on a trivial model, each call with
its own positional arguments and keyword arguments. -/
def TrivialB0Model.fitFold (m : TrivialB0Model)
    (calls : List (List Data4D × Kwargs)) : TrivialB0Model :=
  calls.foldl (fun m c => m.fit c.1 c.2) m

/-- Replay of a sequence of `fit` calls on an averaging model. -/
def AverageDWModel.fitFold (m : AverageDWModel)
    (calls : List (Data4D × Kwargs)) : AverageDWModel :=
  calls.foldl (fun m c => m.fit c.1 c.2) m

/-- ASCII lowercase of one character (the model names concerned are all
ASCII). -/
def lowerChar (c : Char) : Char :=
  if 'A' ≤ c ∧ c ≤ 'Z' then Char.ofNat (c.toNat + 32) else c

/-- ASCII lowercase of a name, as its character list. -/
def lowerName (s : String) : List Char :=
  s.data.map lowerChar

namespace ModelFactory

/-- Modelled from the spec: `ModelFactory.init(gradient_table, model_name,
**params)` of the external `eddymotion` package "maps a model name
(case-insensitive, e.g. \"DTI\", \"DKI\", \"trivial\") to the
corresponding Model variant, constructs it with the gradient table and
forwarded parameters, and returns it.  Fails with an
`UnknownModelError`-kind condition for unrecognized names." -/
def init (gtab : List Gradient) (model : String) (S0 : Option Vol)
    (params : Kwargs) : Except PyError DiffusionModel :=
  let name := lowerName model
  if name = "trivial".data then
    (TrivialB0Model.init gtab S0 params).map DiffusionModel.trivialB0
  else if name = "average".data then
    .ok (.averageDW (AverageDWModel.init gtab params))
  else if name = "dti".data then
    .ok (.dti gtab S0 params)
  else if name = "dki".data then
    .ok (.dki gtab S0 params)
  else
    .error (.unknownModelError model)

end ModelFactory

/-! ## Auxiliary lemmas -/

theorem TrivialB0Model.fitFold_id (m : TrivialB0Model)
    (calls : List (List Data4D × Kwargs)) : m.fitFold calls = m := by
  induction calls generalizing m with
  | nil => rfl
  | cons c cs ih => exact ih m

theorem AverageDWModel.fitFold_noop (m : AverageDWModel)
    (calls : List (Data4D × Kwargs)) : m.fitFold calls = m := by
  induction calls generalizing m with
  | nil => rfl
  | cons c cs ih => exact ih m

theorem DWI.eligible_lt (d : DWI) (b : Bool) {j : ℕ}
    (h : j ∈ d.eligibleIndices b) : j < d.gradients.length := by
  cases b with
  | false =>
      simp only [DWI.eligibleIndices, Bool.false_eq_true, if_false] at h
      exact List.mem_range.1 (List.mem_filter.1 h).1
  | true =>
      simp only [DWI.eligibleIndices, if_true] at h
      exact List.mem_range.1 h

/-! ## Claim theorems -/

/-- C2: for the constant model `TrivialB0Model`, `fit` is a no-op, and
after any number of `fit` calls with any arguments, `predict g` returns
the fixed reference map `S0` supplied at construction, for every query
gradient `g`. -/
theorem C2_trivialB0_fit_noop_predict_constant :
    (∀ (m : TrivialB0Model) (args : List Data4D) (kw : Kwargs),
      m.fit args kw = m) ∧
    (∀ (gtab : List Gradient) (s0 : Vol) (kw : Kwargs)
        (calls : List (List Data4D × Kwargs)) (g : Gradient) (pkw : Kwargs),
      (TrivialB0Model.init gtab (some s0) kw).map
        (fun m => (m.fitFold calls).predict g pkw) = .ok s0) := by
  refine ⟨fun m args kw => rfl, fun gtab s0 kw calls g pkw => ?_⟩
  simp [TrivialB0Model.init, TrivialB0Model.fitFold_id, TrivialB0Model.predict,
    Except.map]

/-- C3: constructing `TrivialB0Model` with the keyword `S0` left at its
default fails immediately with `ValueError` (before any fitting occurs),
and succeeds whenever `S0` is supplied. -/
theorem C3_trivialB0_init_requires_S0 :
    (∀ (gtab : List Gradient) (kw : Kwargs),
      TrivialB0Model.init gtab none kw
        = .error (.valueError "S0 must be provided")) ∧
    (∀ (gtab : List Gradient) (s0 : Vol) (kw : Kwargs),
      ∃ m, TrivialB0Model.init gtab (some s0) kw = .ok m) :=
  ⟨fun _ _ => rfl, fun _ s0 _ => ⟨⟨s0⟩, rfl⟩⟩

/-- C7: `AverageDWModel` requires fitting (its constructor supplies no
prediction target); calling `predict` before `fit` has ever been called
fails with an attribute-missing precondition error rather than returning
data. -/
theorem C7_predict_before_fit_fails (gtab : List Gradient) (kw : Kwargs)
    (g : Gradient) (pkw : Kwargs) :
    (AverageDWModel.init gtab kw).predict g pkw
      = .error (.attributeError "_data") :=
  rfl

/-- C10: `AverageDWModel.fit` as written never populates the `_data` slot,
so after construction and any number of `fit` calls with any arguments,
`predict` raises the attribute-missing error and never returns a value. -/
theorem C10_averageDW_predict_always_fails (gtab : List Gradient)
    (kw : Kwargs) (calls : List (Data4D × Kwargs)) (g : Gradient)
    (pkw : Kwargs) :
    ((AverageDWModel.init gtab kw).fitFold calls).predict g pkw
      = .error (.attributeError "_data") := by
  rw [AverageDWModel.fitFold_noop]
  rfl

/-- C1: evaluation of `AverageDWModel` on a concrete training volume of
two directions with two voxels each: after `fit`, `predict` does not
return the voxel-wise mean `[3, 6]` claimed by the spec — it raises the
attribute-missing error, because the averaging assignment in `fit` is
commented out in the notebook. -/
theorem C1_averageDW_fit_predict_concrete :
    ((AverageDWModel.init [⟨(1, 0, 0), 1000⟩] []).fit
        [[2, 4], [4, 8]] []).predict ⟨(0, 1, 0), 1000⟩ []
      = .error (.attributeError "_data") :=
  rfl

/-- C9: the output of `TrivialB0Model.predict` depends only on the `S0`
supplied at construction: two instances built with the same `S0` but
different gradient tables and keyword arguments, after any two sequences
of `fit` calls, predict identical results for every query gradient. -/
theorem C9_trivialB0_depends_only_on_S0
    (gtab₁ gtab₂ : List Gradient) (kw₁ kw₂ : Kwargs) (s0 : Vol)
    (calls₁ calls₂ : List (List Data4D × Kwargs)) (g : Gradient)
    (pkw : Kwargs) (m₁ m₂ : TrivialB0Model)
    (h₁ : TrivialB0Model.init gtab₁ (some s0) kw₁ = .ok m₁)
    (h₂ : TrivialB0Model.init gtab₂ (some s0) kw₂ = .ok m₂) :
    (m₁.fitFold calls₁).predict g pkw = (m₂.fitFold calls₂).predict g pkw := by
  simp only [TrivialB0Model.init, Except.ok.injEq] at h₁ h₂
  rw [TrivialB0Model.fitFold_id, TrivialB0Model.fitFold_id, ← h₁, ← h₂]

/-- Witness for C9: two concrete constructions with the same `S0 = [7]`
but different gradient tables, keyword arguments and fit histories. -/
theorem C9_witness :
    TrivialB0Model.init [⟨(1, 0, 0), 1000⟩] (some [7]) [("x", 1)]
      = .ok ⟨[7]⟩ ∧
    TrivialB0Model.init [] (some [7]) [] = .ok ⟨[7]⟩ ∧
    (TrivialB0Model.fitFold ⟨[7]⟩ [([[[1], [2]]], [])]).predict ⟨(0, 1, 0), 500⟩ []
      = (TrivialB0Model.fitFold ⟨[7]⟩ []).predict ⟨(0, 0, 1), 0⟩ [("y", 2)] :=
  ⟨rfl, rfl,
    C9_trivialB0_depends_only_on_S0 [⟨(1, 0, 0), 1000⟩] [] [("x", 1)] []
      [7] [([[[1], [2]]], [])] [] ⟨(0, 1, 0), 500⟩ [] ⟨[7]⟩ ⟨[7]⟩ rfl rfl⟩

/-- C6: `ModelFactory.init` given any model name outside the recognized
set fails with the `UnknownModelError`-kind condition, never silently
substituting a default model. -/
theorem C6_factory_unknown_model (gtab : List Gradient) (model : String)
    (S0 : Option Vol) (params : Kwargs)
    (h : lowerName model ∉
      ["trivial".data, "average".data, "dti".data, "dki".data]) :
    ModelFactory.init gtab model S0 params
      = .error (.unknownModelError model) := by
  simp only [List.mem_cons, List.mem_singleton, not_or] at h
  obtain ⟨h1, h2, h3, h4⟩ := h
  simp [ModelFactory.init, h1, h2, h3, h4]

/-- Witness for C6: the factory raises on `init(gtab, "NOT_A_MODEL")`. -/
theorem C6_witness :
    lowerName "NOT_A_MODEL" ∉
      ["trivial".data, "average".data, "dti".data, "dki".data] ∧
    ModelFactory.init [] "NOT_A_MODEL" none []
      = .error (.unknownModelError "NOT_A_MODEL") :=
  ⟨by decide, C6_factory_unknown_model [] "NOT_A_MODEL" none [] (by decide)⟩

/-- C5: `logo_split` fails with the `IndexError`-kind condition whenever
the held-out index is beyond the available direction count, and it fails
before any partitioning is attempted — the dataset state is returned
entirely unchanged. -/
theorem C5_logo_split_out_of_range (d : DWI) (i : ℕ) (b : Bool)
    (h : (d.eligibleIndices b).length ≤ i) :
    d.logo_split i b = (d, .error (.indexError "LOGO index out of range")) := by
  have hn : (d.eligibleIndices b).get? i = none := List.get?_eq_none.2 h
  rw [List.get?_eq_getElem?] at hn
  simp [DWI.logo_split, hn]

/-- Witness for C5: a four-direction dataset (one b=0, three
diffusion-weighted), split requested at the out-of-range index 10. -/
theorem C5_witness :
    (DWI.eligibleIndices
        ⟨[[10], [1], [2], [3]],
         [⟨(0, 0, 0), 0⟩, ⟨(1, 0, 0), 1000⟩, ⟨(0, 1, 0), 1000⟩,
          ⟨(0, 0, 1), 1000⟩], none⟩ false).length ≤ 10 ∧
    DWI.logo_split
        ⟨[[10], [1], [2], [3]],
         [⟨(0, 0, 0), 0⟩, ⟨(1, 0, 0), 1000⟩, ⟨(0, 1, 0), 1000⟩,
          ⟨(0, 0, 1), 1000⟩], none⟩ 10 false
      = (⟨[[10], [1], [2], [3]],
          [⟨(0, 0, 0), 0⟩, ⟨(1, 0, 0), 1000⟩, ⟨(0, 1, 0), 1000⟩,
           ⟨(0, 0, 1), 1000⟩], none⟩,
         .error (.indexError "LOGO index out of range")) :=
  ⟨by decide,
    C5_logo_split_out_of_range
      ⟨[[10], [1], [2], [3]],
       [⟨(0, 0, 0), 0⟩, ⟨(1, 0, 0), 1000⟩, ⟨(0, 1, 0), 1000⟩,
        ⟨(0, 0, 1), 1000⟩], none⟩ 10 false (by decide)⟩

/-- C8: `logo_split` never mutates the dataset's 4D data array or its
gradient table: for every dataset, index and flag, both are unchanged in
the returned dataset state (the only slot that may change is the lazy
b=0 cache). -/
theorem C8_logo_split_never_mutates_data (d : DWI) (i : ℕ) (b : Bool) :
    ((d.logo_split i b).1).dataobj = d.dataobj ∧
    ((d.logo_split i b).1).gradients = d.gradients := by
  unfold DWI.logo_split
  cases hg : (d.eligibleIndices b).get? i with
  | none => exact ⟨rfl, rfl⟩
  | some j =>
      cases b with
      | false => exact ⟨rfl, rfl⟩
      | true =>
          unfold DWI.bzero
          cases hc : d.bzeroCache <;> simp

/-- C4: for every dataset satisfying the direction-count invariant and
every valid held-out index, `logo_split` returns a pair whose training
part has exactly N−1 directions (N with `with_b0`, counting the prepended
b=0 average), with as many gradient rows as volumes, and whose held-out
part is exactly the one excluded direction's volume plus its gradient
entry. -/
theorem C4_logo_split_partition_counts (d : DWI) (i : ℕ) (with_b0 : Bool)
    (hlen : d.dataobj.length = d.gradients.length)
    (hi : i < (d.eligibleIndices with_b0).length) :
    ∃ d' train trainG j,
      (d.eligibleIndices with_b0).get? i = some j ∧
      d.logo_split i with_b0 =
        (d', .ok ((train, trainG),
          ([d.dataobj.getD j []], [d.gradients.getD j default]))) ∧
      train.length =
        (if with_b0 then d.dataobj.length else d.dataobj.length - 1) ∧
      trainG.length = train.length := by
  obtain ⟨j, hget'⟩ : ∃ j, (d.eligibleIndices with_b0)[i]? = some j :=
    ⟨_, List.getElem?_eq_getElem hi⟩
  have hget : (d.eligibleIndices with_b0).get? i = some j := by
    rw [List.get?_eq_getElem?]; exact hget'
  have hjm : j ∈ d.eligibleIndices with_b0 := List.get?_mem hget
  have hjg : j < d.gradients.length := d.eligible_lt with_b0 hjm
  have hjd : j < d.dataobj.length := by rw [hlen]; exact hjg
  cases with_b0 with
  | false =>
      refine ⟨d, d.dataobj.eraseIdx j, d.gradients.eraseIdx j, j,
        hget, ?_, ?_, ?_⟩
      · simp [DWI.logo_split, hget']
      · simp [List.length_eraseIdx, hjd]
      · simp [List.length_eraseIdx, hjd, hjg, hlen]
  | true =>
      refine ⟨d.bzero.1, d.bzero.2 :: d.dataobj.eraseIdx j,
        (⟨(0, 0, 0), 0⟩ : Gradient) :: d.gradients.eraseIdx j, j,
        hget, ?_, ?_, ?_⟩
      · simp [DWI.logo_split, hget']
      · simp [List.length_eraseIdx, hjd]
        omega
      · simp [List.length_eraseIdx, hjd, hjg, hlen]

/-- Witness for C4: the spec's end-to-end scenario — a four-direction
dataset (one b=0, three diffusion-weighted), split at held-out index 1
with `with_b0 = false`. -/
theorem C4_witness :
    (⟨[[10], [1], [2], [3]],
      [⟨(0, 0, 0), 0⟩, ⟨(1, 0, 0), 1000⟩, ⟨(0, 1, 0), 1000⟩,
       ⟨(0, 0, 1), 1000⟩], none⟩ : DWI).dataobj.length
      = (⟨[[10], [1], [2], [3]],
          [⟨(0, 0, 0), 0⟩, ⟨(1, 0, 0), 1000⟩, ⟨(0, 1, 0), 1000⟩,
           ⟨(0, 0, 1), 1000⟩], none⟩ : DWI).gradients.length ∧
    1 < ((⟨[[10], [1], [2], [3]],
          [⟨(0, 0, 0), 0⟩, ⟨(1, 0, 0), 1000⟩, ⟨(0, 1, 0), 1000⟩,
           ⟨(0, 0, 1), 1000⟩], none⟩ : DWI).eligibleIndices false).length ∧
    (∃ d' train trainG j,
      ((⟨[[10], [1], [2], [3]],
         [⟨(0, 0, 0), 0⟩, ⟨(1, 0, 0), 1000⟩, ⟨(0, 1, 0), 1000⟩,
          ⟨(0, 0, 1), 1000⟩], none⟩ : DWI).eligibleIndices false).get? 1
        = some j ∧
      DWI.logo_split
          ⟨[[10], [1], [2], [3]],
           [⟨(0, 0, 0), 0⟩, ⟨(1, 0, 0), 1000⟩, ⟨(0, 1, 0), 1000⟩,
            ⟨(0, 0, 1), 1000⟩], none⟩ 1 false =
        (d', .ok ((train, trainG),
          ([(⟨[[10], [1], [2], [3]],
              [⟨(0, 0, 0), 0⟩, ⟨(1, 0, 0), 1000⟩, ⟨(0, 1, 0), 1000⟩,
               ⟨(0, 0, 1), 1000⟩], none⟩ : DWI).dataobj.getD j []],
           [(⟨[[10], [1], [2], [3]],
              [⟨(0, 0, 0), 0⟩, ⟨(1, 0, 0), 1000⟩, ⟨(0, 1, 0), 1000⟩,
               ⟨(0, 0, 1), 1000⟩], none⟩ : DWI).gradients.getD j default]))) ∧
      train.length =
        (if false then
          (⟨[[10], [1], [2], [3]],
            [⟨(0, 0, 0), 0⟩, ⟨(1, 0, 0), 1000⟩, ⟨(0, 1, 0), 1000⟩,
             ⟨(0, 0, 1), 1000⟩], none⟩ : DWI).dataobj.length
         else
          (⟨[[10], [1], [2], [3]],
            [⟨(0, 0, 0), 0⟩, ⟨(1, 0, 0), 1000⟩, ⟨(0, 1, 0), 1000⟩,
             ⟨(0, 0, 1), 1000⟩], none⟩ : DWI).dataobj.length - 1) ∧
      trainG.length = train.length) :=
  ⟨rfl, by decide,
    C4_logo_split_partition_counts
      ⟨[[10], [1], [2], [3]],
       [⟨(0, 0, 0), 0⟩, ⟨(1, 0, 0), 1000⟩, ⟨(0, 1, 0), 1000⟩,
        ⟨(0, 0, 1), 1000⟩], none⟩ 1 false rfl (by decide)⟩
